import Mathlib

/-!
Verification of the wasm-UDF core of the tidb-hackathon-2020 TiKV fork.

The development shallowly embeds three source files:
- `components/udf/src/wasm.rs` (the execution engine `WASM`),
- `components/udf/src/store.rs` (the manifest-backed module `Store`),
- `components/tidb_query/src/expr/builtin_wasm.rs` (the scalar adapter
  `ScalarFunc::nbody`).

Library behaviour (wasmer compilation, instantiation, export lookup and
function invocation; the filesystem; serde_json) is represented by explicit
data: a compiled module is abstracted by the semantic information the engine
code inspects (its function index space, its export table, whether it has
WASI imports, whether instantiation succeeds, and the behaviour of each
exported function), and the filesystem is a finite map from file names to
contents.  Control flow, error construction and ordering of effects are
translated line by line from the Rust source.
-/

deriving instance DecidableEq for Except

namespace TikvUdf

/-- Decimal digit accumulator for Rust-style integer parsing: succeeds only
when every remaining character is an ASCII digit. -/
def parseDigitsAux : Nat → List Char → Option Nat
  | acc, [] => some acc
  | acc, c :: cs =>
    if c.isDigit then parseDigitsAux (acc * 10 + (c.toNat - 48)) cs else none

/-- Rust `str::parse` digit run: at least one digit, all digits. -/
def parseDigits : List Char → Option Nat
  | [] => none
  | c :: cs => parseDigitsAux 0 (c :: cs)

/-- Rust `str::parse` for a signed integer of `bits` bits: an optional `+` or
`-` sign followed by one or more ASCII digits, rejected on overflow.  This is
the semantics of `arg.parse::<i32>()` / `arg.parse::<i64>()` used in
`wasm.rs` lines 68 and 73. -/
def parseSigned (bits : Nat) (s : String) : Option Int :=
  match s.toList with
  | [] => none
  | '+' :: rest =>
    match parseDigits rest with
    | none => none
    | some n => if (n : Int) ≤ 2 ^ (bits - 1) - 1 then some (n : Int) else none
  | '-' :: rest =>
    match parseDigits rest with
    | none => none
    | some n => if (n : Int) ≤ 2 ^ (bits - 1) then some (-(n : Int)) else none
  | c :: rest =>
    match parseDigits (c :: rest) with
    | none => none
    | some n => if (n : Int) ≤ 2 ^ (bits - 1) - 1 then some (n : Int) else none

/-- One or more ASCII digits. -/
def isDigits1 (cs : List Char) : Bool :=
  (cs ≠ []) && cs.all Char.isDigit

/-- Scan a maximal digit run, returning how many digits were consumed and the
rest of the input. -/
def scanDigits : List Char → Nat × List Char
  | [] => (0, [])
  | c :: cs =>
    if c.isDigit then
      let (n, r) := scanDigits cs
      (n + 1, r)
    else (0, c :: cs)

/-- Optional exponent suffix of a Rust float literal: empty, or `e`/`E`, an
optional sign, and one or more digits. -/
def isExpOrEmpty : List Char → Bool
  | [] => true
  | e :: rest =>
    (e == 'e' || e == 'E') &&
      (match rest with
       | '+' :: ds => isDigits1 ds
       | '-' :: ds => isDigits1 ds
       | ds => isDigits1 ds)

/-- Unsigned numeric part of a Rust float literal:
`digits+ | digits+ . digits* | digits* . digits+`, optionally followed by an
exponent. -/
def isRustFloatNumber (cs : List Char) : Bool :=
  let (n1, r1) := scanDigits cs
  match r1 with
  | '.' :: r2 =>
    let (n2, r3) := scanDigits r2
    decide (0 < n1 + n2) && isExpOrEmpty r3
  | r => decide (0 < n1) && isExpOrEmpty r

/-- Rust `str::parse` for `f32`/`f64` as a recognizer: an optional sign, then
`inf`, `infinity`, `nan` (case-insensitive) or a decimal number with optional
exponent.  Only acceptance matters to the claims (the engine forwards the
parsed value opaquely), so float values are abstracted by their accepted
literal text. -/
def isRustFloat (s : String) : Bool :=
  let cs := s.toList
  let body :=
    match cs with
    | '+' :: r => r
    | '-' :: r => r
    | r => r
  let lower := body.map Char.toLower
  lower = ['i', 'n', 'f'] ||
    lower = ['i', 'n', 'f', 'i', 'n', 'i', 't', 'y'] ||
    lower = ['n', 'a', 'n'] ||
    isRustFloatNumber body

/-- The wasmer value types (`wasmer::ValType`). -/
inductive ValType
  | i32
  | i64
  | f32
  | f64
  | v128
  | externRef
  | funcRef
deriving DecidableEq

/-- The wasmer values (`wasmer::Val`) an invocation exchanges.  Integer
payloads are exact; a float payload is abstracted by the literal text it was
parsed from, since no claim inspects a float value. -/
inductive Val
  | I32 (v : Int)
  | I64 (v : Int)
  | F32 (lit : String)
  | F64 (lit : String)
deriving DecidableEq

/-- The value type a `Val` inhabits. -/
def valKind : Val → ValType
  | .I32 _ => .i32
  | .I64 _ => .i64
  | .F32 _ => .f32
  | .F64 _ => .f64

/-- Whether a value is the 64-bit-integer variant (`Val::i64` in the adapter
pattern match). -/
def isI64 : Val → Bool
  | .I64 _ => true
  | _ => false

/-- Runtime failure of a function invocation (`func.call` error), after the
`downcast::<WasiError>` in `wasm.rs` lines 98-104: an explicit WASI exit
request with a 32-bit unsigned code, the other `WasiError` variant, or a
non-WASI runtime fault. -/
inductive RuntimeError
  | wasiExit (code : Nat)
  | wasiUnknownVersion
  | trap (msg : String)
deriving DecidableEq

/-- The error values `WASM::execute` / `invoke_function` construct, one per
`anyhow!`/`bail!`/`?` site of `wasm.rs`. -/
inductive EngineError
  | compileError
  | wasiSetupError
  | instantiationError
  | noExportedFunctions
  | exportMissing (name : String)
  | exportNotAFunction (name : String)
  | arityMismatch (expected received : Nat) (args : List String)
  | argumentConversion (arg : String) (target : ValType)
  | unsupportedType (arg : String) (target : ValType)
  | executionTrap (e : RuntimeError)
deriving DecidableEq

/-- Observable engine effects, recorded in order: successful compilation
(`Module::new`), successful instantiation (`Instance::new`), and the actual
invocation of the resolved function (`func.call`). -/
inductive EngineEvent
  | compiled
  | instantiated
  | invoked
deriving DecidableEq

/-- Outcome of `WASM::execute`: a returned value vector, a returned error, or
host-process termination via `std::process::exit`. -/
inductive ExecResult
  | ok (vals : List Val)
  | err (e : EngineError)
  | processExit (code : Int)
deriving DecidableEq

/-- Semantics of one callable export: its declared parameter types and what
invoking it with coerced arguments does. -/
def Behavior : Type := List Val → Except RuntimeError (List Val)

/-- One entry of the instance export table (`wasmer::Extern`): a function
with its parameter types and behaviour, or a non-callable export. -/
inductive ExternItem
  | func (params : List ValType) (behavior : Behavior)
  | memory
  | global
  | table

/-- Whether an export-table entry is a function. -/
def isFuncItem : ExternItem → Bool
  | .func _ _ => true
  | _ => false

/-- Semantic abstraction of a successfully compiled wasmer module: the size of
its function index space (`module.info().functions`), its export table, the
result of the WASI-import probe (`get_wasi_version(..).is_some()`), whether
building the WASI environment and import object succeeds, and whether
`Instance::new` succeeds against the chosen import object. -/
structure ModuleInfo where
  functionCount : Nat
  exports : List (String × ExternItem)
  wasiImports : Bool
  wasiFinalizeOk : Bool
  instantiateOk : Bool

/-- The `WASM` struct of `wasm.rs` lines 9-13.  The raw byte `contents` are
abstracted by the result of compiling them: `none` when `Module::new` fails on
malformed bytecode, otherwise the compiled module's semantic information. -/
structure WASM where
  name : String
  compiled : Option ModuleInfo

/-- First export-table entry bound to `name` (`instance.exports.get_function`
name lookup). -/
def findExport (name : String) : List (String × ExternItem) → Option ExternItem
  | [] => none
  | (n, item) :: rest => if n = name then some item else findExport name rest

/-- The `WASM::try_find_function` resolution of `wasm.rs` lines 110-129: a
failed export lookup is mapped to the dedicated no-exported-functions message
whenever the module's function index space is empty, and otherwise to a
missing-name or not-a-function message following the `ExportError` variant. -/
def try_find_function (m : ModuleInfo) (name : String) :
    Except EngineError (List ValType × Behavior) :=
  match findExport name m.exports with
  | some (.func ps beh) => .ok (ps, beh)
  | some _ =>
    if m.functionCount = 0 then .error .noExportedFunctions
    else .error (.exportNotAFunction name)
  | none =>
    if m.functionCount = 0 then .error .noExportedFunctions
    else .error (.exportMissing name)

/-- Coercion of one string argument to its declared parameter type, the match
of `wasm.rs` lines 66-92: the four supported kinds parse with Rust
`str::parse` semantics, every other kind is refused. -/
def coerceArg (arg : String) (t : ValType) : Except EngineError Val :=
  match t with
  | .i32 =>
    match parseSigned 32 arg with
    | some v => .ok (.I32 v)
    | none => .error (.argumentConversion arg .i32)
  | .i64 =>
    match parseSigned 64 arg with
    | some v => .ok (.I64 v)
    | none => .error (.argumentConversion arg .i64)
  | .f32 =>
    if isRustFloat arg then .ok (.F32 arg)
    else .error (.argumentConversion arg .f32)
  | .f64 =>
    if isRustFloat arg then .ok (.F64 arg)
    else .error (.argumentConversion arg .f64)
  | t => .error (.unsupportedType arg t)

/-- Coercion of the argument vector, the
`args.iter().zip(params).map(..).collect::<Result<Vec<_>>>` of `wasm.rs`
lines 63-93: left to right, stopping at the first failure. -/
def coerceArgs : List String → List ValType → Except EngineError (List Val)
  | [], _ => .ok []
  | _ :: _, [] => .ok []
  | a :: as, t :: ts =>
    match coerceArg a t with
    | .error e => .error e
    | .ok v =>
      match coerceArgs as ts with
      | .error e => .error e
      | .ok vs => .ok (v :: vs)

/-- Reinterpretation of a `u32` exit code as the `i32` passed to
`std::process::exit` (the `exit_code as _` cast). -/
def i32ofNat (n : Nat) : Int :=
  let m : Nat := n % 2 ^ 32
  if m < 2 ^ 31 then (m : Int) else (m : Int) - 2 ^ 32

/-- Classification of the invocation result, `wasm.rs` lines 94-107: a
successful call returns its values; a `WasiError::Exit` terminates the host
process with the (i32-cast) exit code; any other failure is returned to the
caller as an execution-trap error. -/
def mapCallResult : Except RuntimeError (List Val) → ExecResult
  | .ok v => .ok v
  | .error (.wasiExit code) => .processExit (i32ofNat code)
  | .error e => .err (.executionTrap e)

/-- The `WASM::invoke_function` body of `wasm.rs` lines 45-108, given the
already-instantiated module: resolve the export, validate arity against the
declared parameter count, coerce the string arguments, invoke, and classify
the outcome.  The second component records whether the function was actually
invoked. -/
def wasm_invoke_function (m : ModuleInfo) (invoke : String)
    (args : List String) : ExecResult × List EngineEvent :=
  match try_find_function m invoke with
  | .error e => (.err e, [])
  | .ok (ps, beh) =>
    if ps.length ≠ args.length then
      (.err (.arityMismatch ps.length args.length args), [])
    else
      match coerceArgs args ps with
      | .error e => (.err e, [])
      | .ok invokeArgs => (mapCallResult (beh invokeArgs), [.invoked])

/-- The `WASM::execute` pipeline of `wasm.rs` lines 20-36: compile the bytes,
build the WASI import object when the module declares WASI imports (an
empty import object otherwise), instantiate, then invoke.  The event list
records,
in order, which effects took place. -/
def WASM.execute (w : WASM) (endpoint : String) (args : List String) :
    ExecResult × List EngineEvent :=
  match w.compiled with
  | none => (.err .compileError, [])
  | some m =>
    if m.wasiImports && !m.wasiFinalizeOk then
      (.err .wasiSetupError, [.compiled])
    else if !m.instantiateOk then
      (.err .instantiationError, [.compiled])
    else
      let r := wasm_invoke_function m endpoint args
      (r.1, .compiled :: .instantiated :: r.2)

/-- Content of a file in the store directory.  The manifest parse
(`serde_json::from_slice::<Map<String, Value>>`) succeeds exactly when the
bytes serialize a JSON object, so contents are split into bytes that do
(`jsonMap`, abstracted by the object's key list — `Store::insert` only ever
writes `Value::Null` values) and bytes that do not (`raw`). -/
inductive Content
  | jsonMap (keys : List String)
  | raw (bytes : List Nat)
deriving DecidableEq

/-- The local filesystem as the store code observes it: whether the
`.wasm_store` directory exists and the files inside it. -/
structure FS where
  dirExists : Bool
  files : List (String × Content)
deriving DecidableEq

/-- Opening or reading a file inside the store directory
(`OpenOptions::open` without `create`, `fs::read`): succeeds exactly when the
directory and the file exist. -/
def FS.readFile (fs : FS) (name : String) : Option Content :=
  if fs.dirExists then
    match fs.files.lookup name with
    | some c => some c
    | none => none
  else none

/-- Overwrite (or create) a file inside the store directory. -/
def FS.writeFile (fs : FS) (name : String) (c : Content) : FS :=
  { fs with
    files :=
      if (fs.files.lookup name).isSome then
        fs.files.map (fun p => if p.1 = name then (name, c) else p)
      else fs.files ++ [(name, c)] }

/-- Failures of the store operations: an I/O failure (open/read/write) or a
manifest deserialization failure. -/
inductive StoreError
  | ioError
  | jsonError
deriving DecidableEq

/-- The `Store` of `store.rs` lines 12-16, abstracted by the key set of its
in-memory manifest (every stored value is `Value::Null`; the open manifest
file handle is represented through the filesystem itself). -/
structure Store where
  manifest : List String
deriving DecidableEq

/-- The manifest deserialization `serde_json::from_slice`: succeeds exactly
on bytes that serialize a JSON object. -/
def parseManifest : Content → Option (List String)
  | .jsonMap ks => some ks
  | .raw _ => none

/-- Key-set insert performed by `Map::insert(name, Value::Null)`. -/
def manifestInsert (name : String) (m : List String) : List String :=
  if m.contains name then m else m ++ [name]

/-- The `Store::init` of `store.rs` lines 20-34: create the store directory
ignoring the result (`let _ = fs::create_dir(STORE_PATH)`), open the manifest
file read/write WITHOUT the create flag (an absent manifest is therefore an
open failure), read it, and deserialize it into the in-memory manifest. -/
def Store.init (fs : FS) : Except StoreError (Store × FS) :=
  let fs1 : FS := if fs.dirExists then fs else { dirExists := true, files := [] }
  match fs1.readFile "manifest" with
  | none => .error .ioError
  | some c =>
    match parseManifest c with
    | none => .error .jsonError
    | some m => .ok ({ manifest := m }, fs1)

/-- The `Store::insert` of `store.rs` lines 37-43: open the wasm file
read/write WITHOUT the create flag — failing, and leaving both the manifest
and the filesystem untouched, when no file of that name exists — then write
the payload, record the name in the manifest, and flush the manifest file. -/
def Store.insert (store : Store) (fs : FS) (name : String)
    (payload : List Nat) : Except StoreError Unit × Store × FS :=
  match fs.readFile name with
  | none => (.error .ioError, store, fs)
  | some _ =>
    let fs1 := fs.writeFile name (.raw payload)
    let m1 := manifestInsert name store.manifest
    let fs2 := fs1.writeFile "manifest" (.jsonMap m1)
    (.ok (), { manifest := m1 }, fs2)

/-- The `Store::get` of `store.rs` lines 46-53: a name absent from the
manifest returns `Ok(None)`; otherwise the wasm file is read from disk —
every single call — and a read failure is an error.  The second component is
the (unchanged) store, the third counts the durable-storage reads the call
performed. -/
def Store.get (store : Store) (name : String) (fs : FS) :
    Except StoreError (Option Content) × Store × Nat :=
  if !(store.manifest.contains name) then (.ok none, store, 0)
  else
    match fs.readFile name with
    | none => (.error .ioError, store, 1)
    | some c => (.ok (some c), store, 1)

/-- The `Store::list` of `store.rs` lines 56-58. -/
def Store.list (store : Store) : List String :=
  store.manifest

/-- Decimal rendering of a natural number (fuel-driven), matching Rust
`to_string`. -/
def natDecAux : Nat → Nat → List Char
  | 0, _ => []
  | fuel + 1, n =>
    if n < 10 then [Char.ofNat (48 + n)]
    else natDecAux fuel (n / 10) ++ [Char.ofNat (48 + n % 10)]

/-- Decimal rendering of a natural number. -/
def natDec (n : Nat) : String :=
  ⟨natDecAux (n + 1) n⟩

/-- Rust `i64::to_string`, used by the adapter to stringify the input value
(`input.to_string()`). -/
def intDec (i : Int) : String :=
  if i < 0 then "-" ++ natDec i.natAbs else natDec i.natAbs

/-- Evaluation-layer errors the adapter can propagate: a failure of the child
expression evaluation, a failure of the wasm store lookup, or an engine error
converted by the `?` on `wasm.execute`. -/
inductive EvalError
  | child (code : Nat)
  | store (code : Nat)
  | engine (e : EngineError)
deriving DecidableEq

/-- Observable outcome of one `ScalarFunc::nbody` evaluation: a returned
scalar (possibly null), a returned evaluation error, a Rust panic (index out
of bounds), or host-process termination during the module call. -/
inductive NbodyOutcome
  | ok (v : Option Int)
  | err (e : EvalError)
  | panicked
  | exited (code : Int)
deriving DecidableEq

/-- The `ScalarFunc::nbody` adapter of `builtin_wasm.rs` lines 6-19, as a
function of its two effectful inputs: the child `eval_int` result (the
`try_opt!` short-circuits both its error and its `None`) and the
`ctx.wasm_store.get(self.wasm_udf_id)` result.  When a module is present it
is executed via `WASM.execute` on endpoint `udf_main` with the stringified
input; `res.as_ref()[0]` panics on an empty result vector, a first element
`Val::i64(v)` returns `Some(v)`, and any other first element falls through to
`Ok(None)`.  The boolean records whether module execution was attempted. -/
def nbody (childRes : Except EvalError (Option Int))
    (storeRes : Except EvalError (Option WASM)) : NbodyOutcome × Bool :=
  match childRes with
  | .error e => (.err e, false)
  | .ok none => (.ok none, false)
  | .ok (some input) =>
    match storeRes with
    | .error e => (.err e, false)
    | .ok none => (.ok none, false)
    | .ok (some w) =>
      match (WASM.execute w "udf_main" [intDec input]).1 with
      | .processExit c => (.exited c, true)
      | .err e => (.err (.engine e), true)
      | .ok res =>
        match res with
        | [] => (.panicked, true)
        | v :: _ =>
          match v with
          | .I64 x => (.ok (some x), true)
          | _ => (.ok none, true)

/-- Whether an `Except` value is a success. -/
def isOkE {ε α : Type _} : Except ε α → Bool
  | .ok _ => true
  | .error _ => false

/-- Behaviour of the doubling example module: `i64 udf_main(i64)` returning
twice its input. -/
def behDouble : Behavior := fun vs =>
  match vs with
  | [.I64 v] => .ok [.I64 (2 * v)]
  | _ => .error (.trap "bad arguments")

/-- The doubling example module. -/
def wDouble : WASM :=
  ⟨"double", some ⟨1, [("udf_main", .func [.i64] behDouble)], false, true, true⟩⟩

/-- A zero-parameter export that requests a WASI process exit with code 7. -/
def behExit7 : Behavior := fun _ => .error (.wasiExit 7)

/-- Module whose entry point requests a process exit with code 7. -/
def wExit : WASM :=
  ⟨"exit", some ⟨1, [("f", .func [] behExit7)], false, true, true⟩⟩

/-- A zero-parameter export that traps. -/
def behTrap0 : Behavior := fun _ => .error (.trap "boom")

/-- Module whose entry point traps. -/
def wTrap : WASM :=
  ⟨"trap", some ⟨1, [("f", .func [] behTrap0)], false, true, true⟩⟩

/-- A one-parameter `udf_main` that traps, for the adapter propagation
scenario. -/
def behTrapI : Behavior := fun _ => .error (.trap "boom")

/-- Module whose `udf_main(i64)` traps. -/
def wTrapUdf : WASM :=
  ⟨"traps", some ⟨1, [("udf_main", .func [.i64] behTrapI)], false, true, true⟩⟩

/-- Module with an empty function index space whose only export is a memory. -/
def wMemOnly : WASM :=
  ⟨"memonly", some ⟨0, [("m", .memory)], false, true, true⟩⟩

/-- Module with a non-empty function index space whose only export is a
global. -/
def wGlobOnly : WASM :=
  ⟨"globonly", some ⟨1, [("g", .global)], false, true, true⟩⟩

/-- Module whose `udf_main(i64)` returns an empty result vector. -/
def wEmptyRes : WASM :=
  ⟨"emptyres", some ⟨1, [("udf_main", .func [.i64] (fun _ => .ok []))], false, true, true⟩⟩

/-- Module whose `udf_main(i64)` returns a 32-bit float as its first result. -/
def wF32Res : WASM :=
  ⟨"floatres", some ⟨1, [("udf_main", .func [.i64] (fun _ => .ok [.F32 "1"]))], false, true, true⟩⟩

theorem execute_past_setup (w : WASM) (m : ModuleInfo) (endpoint : String)
    (args : List String)
    (hc : w.compiled = some m)
    (hw : m.wasiImports = true → m.wasiFinalizeOk = true)
    (hinst : m.instantiateOk = true) :
    WASM.execute w endpoint args =
      ((wasm_invoke_function m endpoint args).1,
        .compiled :: .instantiated :: (wasm_invoke_function m endpoint args).2) := by
  have h1 : (m.wasiImports && !m.wasiFinalizeOk) = false := by
    cases hww : m.wasiImports with
    | false => simp [hww]
    | true => simp [hww, hw hww]
  simp [WASM.execute, hc, h1, hinst]

theorem invoke_resolved (m : ModuleInfo) (endpoint : String)
    (ps : List ValType) (beh : Behavior) (args : List String)
    (hfind : findExport endpoint m.exports = some (.func ps beh)) :
    wasm_invoke_function m endpoint args =
      (if ps.length ≠ args.length then
        (.err (.arityMismatch ps.length args.length args), [])
      else
        match coerceArgs args ps with
        | .error e => (.err e, [])
        | .ok invokeArgs => (mapCallResult (beh invokeArgs), [.invoked])) := by
  simp [wasm_invoke_function, try_find_function, hfind]

theorem execute_invokes (w : WASM) (m : ModuleInfo) (endpoint : String)
    (ps : List ValType) (beh : Behavior) (args : List String) (vs : List Val)
    (hc : w.compiled = some m)
    (hw : m.wasiImports = true → m.wasiFinalizeOk = true)
    (hinst : m.instantiateOk = true)
    (hfind : findExport endpoint m.exports = some (.func ps beh))
    (hlen : ps.length = args.length)
    (hok : coerceArgs args ps = .ok vs) :
    WASM.execute w endpoint args =
      (mapCallResult (beh vs), [.compiled, .instantiated, .invoked]) := by
  rw [execute_past_setup w m endpoint args hc hw hinst,
    invoke_resolved m endpoint ps beh args hfind]
  simp [hlen, hok]

theorem execute_coerce_fails (w : WASM) (m : ModuleInfo) (endpoint : String)
    (ps : List ValType) (beh : Behavior) (args : List String) (e : EngineError)
    (hc : w.compiled = some m)
    (hw : m.wasiImports = true → m.wasiFinalizeOk = true)
    (hinst : m.instantiateOk = true)
    (hfind : findExport endpoint m.exports = some (.func ps beh))
    (hlen : ps.length = args.length)
    (hfail : coerceArgs args ps = .error e) :
    WASM.execute w endpoint args = (.err e, [.compiled, .instantiated]) := by
  rw [execute_past_setup w m endpoint args hc hw hinst,
    invoke_resolved m endpoint ps beh args hfind]
  simp [hlen, hfail]

theorem execute_arity_fails (w : WASM) (m : ModuleInfo) (endpoint : String)
    (ps : List ValType) (beh : Behavior) (args : List String)
    (hc : w.compiled = some m)
    (hw : m.wasiImports = true → m.wasiFinalizeOk = true)
    (hinst : m.instantiateOk = true)
    (hfind : findExport endpoint m.exports = some (.func ps beh))
    (hne : ps.length ≠ args.length) :
    WASM.execute w endpoint args =
      (.err (.arityMismatch ps.length args.length args),
        [.compiled, .instantiated]) := by
  rw [execute_past_setup w m endpoint args hc hw hinst,
    invoke_resolved m endpoint ps beh args hfind]
  simp [hne]

theorem execute_resolution_fails (w : WASM) (m : ModuleInfo) (endpoint : String)
    (args : List String) (e : EngineError)
    (hc : w.compiled = some m)
    (hw : m.wasiImports = true → m.wasiFinalizeOk = true)
    (hinst : m.instantiateOk = true)
    (hfind : try_find_function m endpoint = .error e) :
    WASM.execute w endpoint args = (.err e, [.compiled, .instantiated]) := by
  rw [execute_past_setup w m endpoint args hc hw hinst]
  simp [wasm_invoke_function, hfind]

theorem coerceArg_ok_kind (a : String) (t : ValType) (v : Val)
    (h : coerceArg a t = .ok v) : valKind v = t := by
  cases t <;> simp only [coerceArg] at h
  all_goals
    first
    | exact Except.noConfusion h
    | (split at h <;>
        first
        | exact Except.noConfusion h
        | (injection h with h2; subst h2; rfl))

theorem coerceArg_supported_error (a : String) (t : ValType) (e : EngineError)
    (hsupp : t = .i32 ∨ t = .i64 ∨ t = .f32 ∨ t = .f64)
    (h : coerceArg a t = .error e) : e = .argumentConversion a t := by
  rcases hsupp with h1 | h1 | h1 | h1 <;> subst h1 <;>
    simp only [coerceArg] at h <;> split at h <;>
    first
    | exact Except.noConfusion h
    | (injection h with h2; exact h2.symm)

theorem coerceArg_unsupported (a : String) (t : ValType)
    (hun : ¬(t = .i32 ∨ t = .i64 ∨ t = .f32 ∨ t = .f64)) :
    coerceArg a t = .error (.unsupportedType a t) := by
  cases t
  · exact absurd (Or.inl rfl) hun
  · exact absurd (Or.inr (Or.inl rfl)) hun
  · exact absurd (Or.inr (Or.inr (Or.inl rfl))) hun
  · exact absurd (Or.inr (Or.inr (Or.inr rfl))) hun
  · rfl
  · rfl
  · rfl

theorem coerceArgs_ok_get (args : List String) (ps : List ValType)
    (vs : List Val) (h : coerceArgs args ps = .ok vs) :
    ∀ (i : Nat) (h1 : i < args.length) (h2 : i < ps.length)
      (h3 : i < vs.length),
      coerceArg (args.get ⟨i, h1⟩) (ps.get ⟨i, h2⟩) = .ok (vs.get ⟨i, h3⟩) := by
  induction args generalizing ps vs with
  | nil => intro i h1 _ _; exact absurd h1 (Nat.not_lt_zero i)
  | cons a as ih =>
    cases ps with
    | nil => intro i _ h2 _; exact absurd h2 (Nat.not_lt_zero i)
    | cons t ts =>
      simp only [coerceArgs] at h
      cases hca : coerceArg a t <;> simp only [hca] at h
      · exact Except.noConfusion h
      · cases hcs : coerceArgs as ts <;> simp only [hcs] at h
        · exact Except.noConfusion h
        · injection h with h4
          subst h4
          intro i h1 h2 h3
          cases i with
          | zero => exact hca
          | succ k =>
            exact ih ts _ hcs k (Nat.lt_of_succ_lt_succ h1)
              (Nat.lt_of_succ_lt_succ h2) (Nat.lt_of_succ_lt_succ h3)

theorem coerceArgs_ok_length (args : List String) (ps : List ValType)
    (vs : List Val) (h : coerceArgs args ps = .ok vs)
    (hlen : ps.length = args.length) : vs.length = args.length := by
  induction args generalizing ps vs with
  | nil =>
    cases ps <;> simp only [coerceArgs] at h <;> injection h with h4 <;>
      subst h4 <;> rfl
  | cons a as ih =>
    cases ps with
    | nil => exact absurd hlen (by simp)
    | cons t ts =>
      simp only [coerceArgs] at h
      cases hca : coerceArg a t <;> simp only [hca] at h
      · exact Except.noConfusion h
      · cases hcs : coerceArgs as ts <;> simp only [hcs] at h
        · exact Except.noConfusion h
        · injection h with h4
          subst h4
          simp only [List.length_cons]
          rw [ih ts _ hcs (by injection hlen)]

theorem coerceArgs_first_error (args : List String) (ps : List ValType) :
    ∀ (i : Nat) (h1 : i < args.length) (h2 : i < ps.length),
      (∀ (j : Nat) (hj1 : j < args.length) (hj2 : j < ps.length), j < i →
        isOkE (coerceArg (args.get ⟨j, hj1⟩) (ps.get ⟨j, hj2⟩)) = true) →
      ∀ (e : EngineError),
        coerceArg (args.get ⟨i, h1⟩) (ps.get ⟨i, h2⟩) = .error e →
        coerceArgs args ps = .error e := by
  induction args generalizing ps with
  | nil => intro i h1; exact absurd h1 (Nat.not_lt_zero i)
  | cons a as ih =>
    intro i h1 h2 hpre e hfail
    cases ps with
    | nil => exact absurd h2 (Nat.not_lt_zero i)
    | cons t ts =>
      cases i with
      | zero =>
        have hfail0 : coerceArg a t = .error e := hfail
        simp only [coerceArgs, hfail0]
      | succ k =>
        have h0 : isOkE (coerceArg a t) = true :=
          hpre 0 (Nat.succ_pos _) (Nat.succ_pos _) (Nat.succ_pos k)
        cases hca : coerceArg a t <;> rw [hca] at h0
        · exact absurd h0 (by simp [isOkE])
        · have hfailk : coerceArg (as.get ⟨k, Nat.lt_of_succ_lt_succ h1⟩)
              (ts.get ⟨k, Nat.lt_of_succ_lt_succ h2⟩) = .error e := hfail
          have hrec : coerceArgs as ts = .error e :=
            ih ts k (Nat.lt_of_succ_lt_succ h1) (Nat.lt_of_succ_lt_succ h2)
              (fun j hj1 hj2 hj =>
                hpre (j + 1) (Nat.succ_lt_succ hj1) (Nat.succ_lt_succ hj2)
                  (Nat.succ_lt_succ hj))
              e hfailk
          simp only [coerceArgs, hca, hrec]

/-- C1: for every call to `execute`, an invocation failure that is an
explicit WASI process-exit request terminates the host process with that exit
code (which the code reinterprets as an `i32`; the hypothesis `c < 2 ^ 31`
makes the reinterpretation the identity), and every other invocation failure
is returned to the caller wrapped as an execution-trap error, never
swallowed. -/
theorem execute_exit_and_trap_classification
    (wE : WASM) (mE : ModuleInfo) (epE : String) (psE : List ValType)
    (behE : Behavior) (argsE : List String) (vsE : List Val) (c : Nat)
    (hcE : wE.compiled = some mE)
    (hwE : mE.wasiImports = true → mE.wasiFinalizeOk = true)
    (hiE : mE.instantiateOk = true)
    (hfE : findExport epE mE.exports = some (.func psE behE))
    (hlE : psE.length = argsE.length)
    (hokE : coerceArgs argsE psE = .ok vsE)
    (hbE : behE vsE = .error (.wasiExit c))
    (hc31 : c < 2 ^ 31)
    (wT : WASM) (mT : ModuleInfo) (epT : String) (psT : List ValType)
    (behT : Behavior) (argsT : List String) (vsT : List Val)
    (eT : RuntimeError)
    (hcT : wT.compiled = some mT)
    (hwT : mT.wasiImports = true → mT.wasiFinalizeOk = true)
    (hiT : mT.instantiateOk = true)
    (hfT : findExport epT mT.exports = some (.func psT behT))
    (hlT : psT.length = argsT.length)
    (hokT : coerceArgs argsT psT = .ok vsT)
    (hbT : behT vsT = .error eT)
    (hnx : ∀ k, eT ≠ .wasiExit k) :
    WASM.execute wE epE argsE =
      (.processExit (c : Int), [.compiled, .instantiated, .invoked]) ∧
    WASM.execute wT epT argsT =
      (.err (.executionTrap eT), [.compiled, .instantiated, .invoked]) := by
  constructor
  · rw [execute_invokes wE mE epE psE behE argsE vsE hcE hwE hiE hfE hlE hokE]
    have hexit : mapCallResult (behE vsE) = .processExit (c : Int) := by
      rw [hbE]
      simp only [mapCallResult]
      have hm : c % 2 ^ 32 = c :=
        Nat.mod_eq_of_lt (lt_trans hc31 (by norm_num))
      unfold i32ofNat
      simp only [hm]
      rw [if_pos hc31]
    rw [hexit]
  · rw [execute_invokes wT mT epT psT behT argsT vsT hcT hwT hiT hfT hlT hokT]
    have htrap : mapCallResult (behT vsT) = .err (.executionTrap eT) := by
      rw [hbT]
      cases eT with
      | wasiExit k => exact absurd rfl (hnx k)
      | wasiUnknownVersion => rfl
      | trap msg => rfl
    rw [htrap]

/-- Witness for C1 at the concrete modules `wExit` (WASI exit 7) and `wTrap`
(a plain trap). -/
theorem execute_exit_and_trap_classification_witness :
    WASM.execute wExit "f" [] =
      (.processExit 7, [.compiled, .instantiated, .invoked]) ∧
    WASM.execute wTrap "f" [] =
      (.err (.executionTrap (.trap "boom")),
        [.compiled, .instantiated, .invoked]) :=
  execute_exit_and_trap_classification wExit
    ⟨1, [("f", .func [] behExit7)], false, true, true⟩ "f" [] behExit7 [] [] 7
    rfl (by decide) rfl rfl rfl rfl rfl (by decide)
    wTrap ⟨1, [("f", .func [] behTrap0)], false, true, true⟩ "f" [] behTrap0
    [] [] (.trap "boom")
    rfl (by decide) rfl rfl rfl rfl rfl (fun k h => nomatch h)

/-- C2 counterexample: on the doubling module (one declared `i64` parameter)
called with two arguments, `execute` does fail with the arity-mismatch error
carrying expected count 1, received count 2 and the arguments — but the event
trace shows the module was instantiated BEFORE the arity validation, refuting
the claim that no module instantiation occurs before this validation. -/
theorem execute_arity_counterexample :
    WASM.execute wDouble "udf_main" ["21", "1"] =
      (.err (.arityMismatch 1 2 ["21", "1"]), [.compiled, .instantiated]) ∧
    EngineEvent.instantiated ∈ (WASM.execute wDouble "udf_main" ["21", "1"]).2 :=
  ⟨by decide, by decide⟩

/-- C2 amended: a call whose argument count differs from the declared
parameter count of the resolved export always fails with the arity-mismatch
error carrying the expected count, the received count and the arguments — but
compilation and instantiation DO occur before this validation (the check runs
on the already-created instance). -/
theorem execute_arity_mismatch_after_instantiation
    (w : WASM) (m : ModuleInfo) (endpoint : String) (ps : List ValType)
    (beh : Behavior) (args : List String)
    (hc : w.compiled = some m)
    (hw : m.wasiImports = true → m.wasiFinalizeOk = true)
    (hi : m.instantiateOk = true)
    (hf : findExport endpoint m.exports = some (.func ps beh))
    (hne : ps.length ≠ args.length) :
    WASM.execute w endpoint args =
      (.err (.arityMismatch ps.length args.length args),
        [.compiled, .instantiated]) ∧
    EngineEvent.instantiated ∈ (WASM.execute w endpoint args).2 := by
  have h := execute_arity_fails w m endpoint ps beh args hc hw hi hf hne
  exact ⟨h, by rw [h]; simp⟩

/-- Witness for the amended C2 at the doubling module with two arguments. -/
theorem execute_arity_mismatch_after_instantiation_witness :
    WASM.execute wDouble "udf_main" ["7", "8"] =
      (.err (.arityMismatch 1 2 ["7", "8"]), [.compiled, .instantiated]) ∧
    EngineEvent.instantiated ∈ (WASM.execute wDouble "udf_main" ["7", "8"]).2 :=
  execute_arity_mismatch_after_instantiation wDouble
    ⟨1, [("udf_main", .func [.i64] behDouble)], false, true, true⟩ "udf_main"
    [.i64] behDouble ["7", "8"] rfl (by decide) rfl rfl (by decide)

/-- C9: on a fresh filesystem — no prior store directory, hence no manifest
file — `Store::init` fails with an I/O error instead of returning an empty
cache: the manifest is opened without the create flag.  The repository's own
test (`Store::init().unwrap()` asserting an empty list) expects success with
an empty cache, so the claim reflects the intent and the code is the slip. -/
theorem store_init_fresh_filesystem_fails :
    Store.init ⟨false, []⟩ = .error .ioError := by decide

/-- C10: for every name with no existing file in the store directory,
`Store::insert` returns an I/O error (the wasm file is opened read/write
without creation) and leaves both the in-memory manifest and the filesystem
unchanged: a fresh module can never be added through `insert` alone. -/
theorem store_insert_requires_existing_file
    (fs : FS) (store : Store) (name : String) (payload : List Nat)
    (h : fs.readFile name = none) :
    Store.insert store fs name payload = (.error .ioError, store, fs) := by
  simp [Store.insert, h]

/-- Witness for C10: inserting into an empty store directory fails and
changes nothing. -/
theorem store_insert_requires_existing_file_witness :
    Store.insert ⟨[]⟩ ⟨true, []⟩ "mod" [1, 2] =
      (.error .ioError, ⟨[]⟩, ⟨true, []⟩) :=
  store_insert_requires_existing_file ⟨true, []⟩ ⟨[]⟩ "mod" [1, 2] (by decide)

/-- C3 counterexample: on a store whose manifest lists name `m` with backing
bytes on disk, the first `get` performs a durable read (count 1) — and a
second `get` of the same name, on the store returned by the first, returns an
equal value but AGAIN performs a durable read (count 1, not 0): `get` never
inserts module bytes into any in-memory cache, refuting the claim that later
gets are served without a second storage read. -/
theorem store_get_second_read_counterexample :
    Store.get ⟨["m"]⟩ "m" ⟨true, [("m", .raw [1, 2, 3])]⟩ =
      (.ok (some (.raw [1, 2, 3])), ⟨["m"]⟩, 1) ∧
    Store.get (Store.get ⟨["m"]⟩ "m" ⟨true, [("m", .raw [1, 2, 3])]⟩).2.1 "m"
        ⟨true, [("m", .raw [1, 2, 3])]⟩ =
      (.ok (some (.raw [1, 2, 3])), ⟨["m"]⟩, 1) :=
  ⟨by decide, by decide⟩

/-- C3 amended: a second `get` of a once-loaded name returns an equal value,
but every `get` of a manifest-listed name performs its own durable-storage
read — the store caches only names in its manifest, never module bytes, so no
get is ever served from an in-memory byte cache. -/
theorem store_get_rereads_every_time
    (store : Store) (name : String) (fs : FS) (c : Content)
    (hmem : store.manifest.contains name = true)
    (hread : fs.readFile name = some c) :
    Store.get store name fs = (.ok (some c), store, 1) ∧
    Store.get (Store.get store name fs).2.1 name fs =
      (.ok (some c), store, 1) := by
  have hm : name ∈ store.manifest := by simpa using hmem
  have h1 : Store.get store name fs = (.ok (some c), store, 1) := by
    simp [Store.get, hm, hread]
  exact ⟨h1, by rw [h1]; exact h1⟩

/-- Witness for the amended C3 on a one-module store. -/
theorem store_get_rereads_every_time_witness :
    Store.get ⟨["w"]⟩ "w" ⟨true, [("w", .raw [9])]⟩ =
      (.ok (some (.raw [9])), ⟨["w"]⟩, 1) ∧
    Store.get (Store.get ⟨["w"]⟩ "w" ⟨true, [("w", .raw [9])]⟩).2.1 "w"
        ⟨true, [("w", .raw [9])]⟩ =
      (.ok (some (.raw [9])), ⟨["w"]⟩, 1) :=
  store_get_rereads_every_time ⟨["w"]⟩ "w" ⟨true, [("w", .raw [9])]⟩
    (.raw [9]) (by decide) (by decide)

/-- C4 counterexample: for a name absent from the manifest, `get` returns
`Ok(None)` — a SUCCESS carrying an absent value, with no durable read — not a
module-not-found error, refuting the claim that such a lookup fails. -/
theorem store_get_absent_name_counterexample :
    Store.get ⟨[]⟩ "x" ⟨true, []⟩ = (.ok none, ⟨[]⟩, 0) := by decide

/-- C4 amended: a name absent from the manifest yields success with an absent
value (`Ok(None)`), a manifest-listed name whose backing file cannot be read
yields an I/O error, and the in-memory manifest is unchanged by `get` in
every case. -/
theorem store_get_absent_name_behaviour
    (fs : FS) (sA sP s : Store) (nA nP n : String)
    (hA : sA.manifest.contains nA = false)
    (hP : sP.manifest.contains nP = true)
    (hR : fs.readFile nP = none) :
    Store.get sA nA fs = (.ok none, sA, 0) ∧
    Store.get sP nP fs = (.error .ioError, sP, 1) ∧
    (Store.get s n fs).2.1 = s := by
  have hmA : nA ∉ sA.manifest := by simpa using hA
  have hmP : nP ∈ sP.manifest := by simpa using hP
  refine ⟨by simp [Store.get, hmA], by simp [Store.get, hmP, hR], ?_⟩
  unfold Store.get
  split
  · rfl
  · split <;> rfl

/-- Witness for the amended C4: an unknown name on an empty store, a listed
name with a missing file, and manifest preservation. -/
theorem store_get_absent_name_behaviour_witness :
    Store.get ⟨[]⟩ "x" ⟨true, [("k", .raw [2])]⟩ = (.ok none, ⟨[]⟩, 0) ∧
    Store.get ⟨["gone"]⟩ "gone" ⟨true, [("k", .raw [2])]⟩ =
      (.error .ioError, ⟨["gone"]⟩, 1) ∧
    (Store.get ⟨["k"]⟩ "k" ⟨true, [("k", .raw [2])]⟩).2.1 = ⟨["k"]⟩ :=
  store_get_absent_name_behaviour ⟨true, [("k", .raw [2])]⟩ ⟨[]⟩ ⟨["gone"]⟩
    ⟨["k"]⟩ "x" "gone" "k" (by decide) (by decide) (by decide)

theorem try_find_missing (m : ModuleInfo) (name : String)
    (h : findExport name m.exports = none) :
    try_find_function m name =
      (if m.functionCount = 0 then .error .noExportedFunctions
       else .error (.exportMissing name)) := by
  simp [try_find_function, h]

theorem try_find_nonfunc (m : ModuleInfo) (name : String) (it : ExternItem)
    (h : findExport name m.exports = some it) (hn : isFuncItem it = false) :
    try_find_function m name =
      (if m.functionCount = 0 then .error .noExportedFunctions
       else .error (.exportNotAFunction name)) := by
  cases it
  · exact absurd hn (by simp [isFuncItem])
  all_goals simp [try_find_function, h]

/-- C6 counterexample: a module that declares no functions but exports a
memory named `m`.  Requesting endpoint `m` resolves to a non-callable export,
yet the failure detail is the no-exported-functions message, not the
export-exists-but-is-not-a-function message the claim requires for this case:
the code keys the first message to the emptiness of the module's function
index space, which takes precedence over the export-error variant. -/
theorem resolution_message_counterexample :
    WASM.execute wMemOnly "m" [] =
      (.err .noExportedFunctions, [.compiled, .instantiated]) ∧
    EngineError.noExportedFunctions ≠ .exportNotAFunction "m" :=
  ⟨by decide, by decide⟩

/-- C6 amended: the resolution-failure detail is keyed to the module's
declared-function count.  When the function index space is empty, BOTH a
missing endpoint name and a name bound to a non-callable export report the
no-exported-functions message; when the module declares at least one
function, a missing name reports the name-not-found message and a
non-callable export reports the not-a-function message; the three messages
are pairwise distinct. -/
theorem resolution_message_behaviour
    (wZ : WASM) (mZ : ModuleInfo)
    (hcZ : wZ.compiled = some mZ)
    (hwZ : mZ.wasiImports = true → mZ.wasiFinalizeOk = true)
    (hiZ : mZ.instantiateOk = true)
    (hz : mZ.functionCount = 0)
    (wP : WASM) (mP : ModuleInfo)
    (hcP : wP.compiled = some mP)
    (hwP : mP.wasiImports = true → mP.wasiFinalizeOk = true)
    (hiP : mP.instantiateOk = true)
    (hp : mP.functionCount ≠ 0)
    (nZm nZf nPm nPf : String) (args : List String)
    (hZm : findExport nZm mZ.exports = none)
    (itZ : ExternItem) (hZf : findExport nZf mZ.exports = some itZ)
    (hZfn : isFuncItem itZ = false)
    (hPm : findExport nPm mP.exports = none)
    (itP : ExternItem) (hPf : findExport nPf mP.exports = some itP)
    (hPfn : isFuncItem itP = false) :
    (WASM.execute wZ nZm args).1 = .err .noExportedFunctions ∧
    (WASM.execute wZ nZf args).1 = .err .noExportedFunctions ∧
    (WASM.execute wP nPm args).1 = .err (.exportMissing nPm) ∧
    (WASM.execute wP nPf args).1 = .err (.exportNotAFunction nPf) ∧
    EngineError.noExportedFunctions ≠ .exportMissing nPm ∧
    EngineError.noExportedFunctions ≠ .exportNotAFunction nPf ∧
    EngineError.exportMissing nPm ≠ .exportNotAFunction nPf := by
  refine ⟨?_, ?_, ?_, ?_, ?_, ?_, ?_⟩
  · rw [execute_resolution_fails wZ mZ nZm args _ hcZ hwZ hiZ
      (by rw [try_find_missing mZ nZm hZm, if_pos hz])]
  · rw [execute_resolution_fails wZ mZ nZf args _ hcZ hwZ hiZ
      (by rw [try_find_nonfunc mZ nZf itZ hZf hZfn, if_pos hz])]
  · rw [execute_resolution_fails wP mP nPm args _ hcP hwP hiP
      (by rw [try_find_missing mP nPm hPm, if_neg hp])]
  · rw [execute_resolution_fails wP mP nPf args _ hcP hwP hiP
      (by rw [try_find_nonfunc mP nPf itP hPf hPfn, if_neg hp])]
  · exact fun h => nomatch h
  · exact fun h => nomatch h
  · exact fun h => nomatch h

/-- Witness for the amended C6 at `wMemOnly` (zero declared functions, one
memory export) and `wGlobOnly` (one declared function, one global export). -/
theorem resolution_message_behaviour_witness :
    (WASM.execute wMemOnly "x" []).1 = .err .noExportedFunctions ∧
    (WASM.execute wMemOnly "m" []).1 = .err .noExportedFunctions ∧
    (WASM.execute wGlobOnly "x" []).1 = .err (.exportMissing "x") ∧
    (WASM.execute wGlobOnly "g" []).1 = .err (.exportNotAFunction "g") ∧
    EngineError.noExportedFunctions ≠ .exportMissing "x" ∧
    EngineError.noExportedFunctions ≠ .exportNotAFunction "g" ∧
    EngineError.exportMissing "x" ≠ .exportNotAFunction "g" :=
  resolution_message_behaviour wMemOnly ⟨0, [("m", .memory)], false, true, true⟩
    rfl (by decide) rfl rfl
    wGlobOnly ⟨1, [("g", .global)], false, true, true⟩
    rfl (by decide) rfl (by decide)
    "x" "m" "x" "g" [] rfl .memory rfl rfl rfl .global rfl rfl

theorem nbody_executes (v : Int) (w : WASM) (res : List Val)
    (hexec : (WASM.execute w "udf_main" [intDec v]).1 = .ok res) :
    nbody (.ok (some v)) (.ok (some w)) =
      (match res with
       | [] => (.panicked, true)
       | v0 :: _ =>
         match v0 with
         | .I64 x => (.ok (some x), true)
         | _ => (.ok none, true)) := by
  cases res with
  | nil => simp only [nbody, hexec]
  | cons v0 rest => cases v0 <;> simp only [nbody, hexec]

/-- C5 counterexample: a module whose `udf_main` succeeds with an EMPTY
result vector makes the adapter panic (the unchecked `res.as_ref()[0]` index)
instead of evaluating to null, refuting the claim that an empty result vector
does not abort. -/
theorem nbody_empty_result_counterexample :
    nbody (.ok (some 1)) (.ok (some wEmptyRes)) = (.panicked, true) ∧
    (.panicked, true) ≠ ((.ok none, true) : NbodyOutcome × Bool) :=
  ⟨by decide, by decide⟩

/-- C5 amended: the adapter projects the FIRST element of a non-empty result
vector — an integer-typed first element yields that value, a first element of
any other kind yields null — but an empty result vector makes the adapter
panic with an index-out-of-bounds rather than yield null. -/
theorem nbody_projection_behaviour
    (v : Int)
    (wI : WASM) (mI : ModuleInfo) (psI : List ValType) (behI : Behavior)
    (vsI : List Val) (x : Int) (restI : List Val)
    (hcI : wI.compiled = some mI)
    (hwI : mI.wasiImports = true → mI.wasiFinalizeOk = true)
    (hiI : mI.instantiateOk = true)
    (hfI : findExport "udf_main" mI.exports = some (.func psI behI))
    (hlI : psI.length = 1)
    (hokI : coerceArgs [intDec v] psI = .ok vsI)
    (hbI : behI vsI = .ok (.I64 x :: restI))
    (wO : WASM) (mO : ModuleInfo) (psO : List ValType) (behO : Behavior)
    (vsO : List Val) (v0 : Val) (restO : List Val)
    (hcO : wO.compiled = some mO)
    (hwO : mO.wasiImports = true → mO.wasiFinalizeOk = true)
    (hiO : mO.instantiateOk = true)
    (hfO : findExport "udf_main" mO.exports = some (.func psO behO))
    (hlO : psO.length = 1)
    (hokO : coerceArgs [intDec v] psO = .ok vsO)
    (hbO : behO vsO = .ok (v0 :: restO))
    (hv0 : isI64 v0 = false)
    (wN : WASM) (mN : ModuleInfo) (psN : List ValType) (behN : Behavior)
    (vsN : List Val)
    (hcN : wN.compiled = some mN)
    (hwN : mN.wasiImports = true → mN.wasiFinalizeOk = true)
    (hiN : mN.instantiateOk = true)
    (hfN : findExport "udf_main" mN.exports = some (.func psN behN))
    (hlN : psN.length = 1)
    (hokN : coerceArgs [intDec v] psN = .ok vsN)
    (hbN : behN vsN = .ok []) :
    nbody (.ok (some v)) (.ok (some wI)) = (.ok (some x), true) ∧
    nbody (.ok (some v)) (.ok (some wO)) = (.ok none, true) ∧
    nbody (.ok (some v)) (.ok (some wN)) = (.panicked, true) := by
  refine ⟨?_, ?_, ?_⟩
  · have hexec : (WASM.execute wI "udf_main" [intDec v]).1 = .ok (.I64 x :: restI) := by
      rw [execute_invokes wI mI "udf_main" psI behI [intDec v] vsI hcI hwI hiI
        hfI (by rw [hlI]; rfl) hokI]
      rw [show mapCallResult (behI vsI) = .ok (.I64 x :: restI) by
        rw [hbI]; rfl]
    rw [nbody_executes v wI (.I64 x :: restI) hexec]
  · have hexec : (WASM.execute wO "udf_main" [intDec v]).1 = .ok (v0 :: restO) := by
      rw [execute_invokes wO mO "udf_main" psO behO [intDec v] vsO hcO hwO hiO
        hfO (by rw [hlO]; rfl) hokO]
      rw [show mapCallResult (behO vsO) = .ok (v0 :: restO) by rw [hbO]; rfl]
    rw [nbody_executes v wO (v0 :: restO) hexec]
    cases v0 with
    | I32 y => rfl
    | I64 y => exact absurd hv0 (by simp [isI64])
    | F32 s => rfl
    | F64 s => rfl
  · have hexec : (WASM.execute wN "udf_main" [intDec v]).1 = .ok [] := by
      rw [execute_invokes wN mN "udf_main" psN behN [intDec v] vsN hcN hwN hiN
        hfN (by rw [hlN]; rfl) hokN]
      rw [show mapCallResult (behN vsN) = .ok [] by rw [hbN]; rfl]
    rw [nbody_executes v wN [] hexec]

/-- Witness for the amended C5 at the doubling module (first element
`Int64(10)` for input 5), the float-result module, and the empty-result
module. -/
theorem nbody_projection_behaviour_witness :
    nbody (.ok (some 5)) (.ok (some wDouble)) = (.ok (some 10), true) ∧
    nbody (.ok (some 5)) (.ok (some wF32Res)) = (.ok none, true) ∧
    nbody (.ok (some 5)) (.ok (some wEmptyRes)) = (.panicked, true) :=
  nbody_projection_behaviour 5
    wDouble ⟨1, [("udf_main", .func [.i64] behDouble)], false, true, true⟩
    [.i64] behDouble [.I64 5] 10 [] rfl (by decide) rfl rfl rfl (by decide)
    (by decide)
    wF32Res
    ⟨1, [("udf_main", .func [.i64] (fun _ => .ok [.F32 "1"]))], false, true, true⟩
    [.i64] (fun _ => .ok [.F32 "1"]) [.I64 5] (.F32 "1") [] rfl (by decide)
    rfl rfl rfl (by decide) rfl (by decide)
    wEmptyRes
    ⟨1, [("udf_main", .func [.i64] (fun _ => .ok []))], false, true, true⟩
    [.i64] (fun _ => .ok []) [.I64 5] rfl (by decide) rfl rfl rfl (by decide)
    rfl

/-- C7: for every call with matching arity, a successfully coerced argument
vector assigns each position the exact declared parameter kind and is passed
to the invocation; the first coercion failure aborts the call before any
invocation, returning that failure; for the four supported kinds a parse
failure is reported as the argument-conversion error naming the argument text
and the target kind; and a declared kind outside the four supported kinds is
refused as unsupported. -/
theorem execute_argument_coercion
    (w : WASM) (m : ModuleInfo) (endpoint : String) (ps : List ValType)
    (beh : Behavior)
    (hc : w.compiled = some m)
    (hw : m.wasiImports = true → m.wasiFinalizeOk = true)
    (hi : m.instantiateOk = true)
    (hf : findExport endpoint m.exports = some (.func ps beh))
    (argsA : List String) (vsA : List Val)
    (hlenA : ps.length = argsA.length)
    (hokA : coerceArgs argsA ps = .ok vsA)
    (i : Nat) (hi1 : i < argsA.length) (hi2 : i < ps.length)
    (hi3 : i < vsA.length)
    (argsB : List String)
    (hlenB : ps.length = argsB.length)
    (j : Nat) (hj1 : j < argsB.length) (hj2 : j < ps.length)
    (hpre : ∀ (k : Nat) (hk1 : k < argsB.length) (hk2 : k < ps.length),
      k < j → isOkE (coerceArg (argsB.get ⟨k, hk1⟩) (ps.get ⟨k, hk2⟩)) = true)
    (eB : EngineError)
    (hfailB : coerceArg (argsB.get ⟨j, hj1⟩) (ps.get ⟨j, hj2⟩) = .error eB)
    (argC : String) (tC : ValType)
    (hsupp : tC = .i32 ∨ tC = .i64 ∨ tC = .f32 ∨ tC = .f64)
    (hCfail : isOkE (coerceArg argC tC) = false)
    (argU : String) (tU : ValType)
    (hun : ¬(tU = .i32 ∨ tU = .i64 ∨ tU = .f32 ∨ tU = .f64)) :
    valKind (vsA.get ⟨i, hi3⟩) = ps.get ⟨i, hi2⟩ ∧
    WASM.execute w endpoint argsA =
      (mapCallResult (beh vsA), [.compiled, .instantiated, .invoked]) ∧
    WASM.execute w endpoint argsB = (.err eB, [.compiled, .instantiated]) ∧
    coerceArg argC tC = .error (.argumentConversion argC tC) ∧
    coerceArg argU tU = .error (.unsupportedType argU tU) := by
  refine ⟨?_, ?_, ?_, ?_, coerceArg_unsupported argU tU hun⟩
  · exact coerceArg_ok_kind _ _ _ (coerceArgs_ok_get argsA ps vsA hokA i hi1 hi2 hi3)
  · exact execute_invokes w m endpoint ps beh argsA vsA hc hw hi hf hlenA hokA
  · exact execute_coerce_fails w m endpoint ps beh argsB eB hc hw hi hf hlenB
      (coerceArgs_first_error argsB ps j hj1 hj2 hpre eB hfailB)
  · cases hcc : coerceArg argC tC with
    | ok val =>
      rw [hcc] at hCfail
      exact absurd hCfail (by simp [isOkE])
    | error e =>
      have he : e = .argumentConversion argC tC :=
        coerceArg_supported_error argC tC e hsupp hcc
      rw [he]

/-- Witness for C7 at the doubling module: argument 21 coerces to
`Int64(21)`, argument `x` fails to parse as `i64` before any invocation, and
the `v128` kind is refused. -/
theorem execute_argument_coercion_witness :
    valKind ([Val.I64 21].get ⟨0, by decide⟩) = [ValType.i64].get ⟨0, by decide⟩ ∧
    WASM.execute wDouble "udf_main" ["21"] =
      (mapCallResult (behDouble [.I64 21]), [.compiled, .instantiated, .invoked]) ∧
    WASM.execute wDouble "udf_main" ["x"] =
      (.err (.argumentConversion "x" .i64), [.compiled, .instantiated]) ∧
    coerceArg "x" .i64 = .error (.argumentConversion "x" .i64) ∧
    coerceArg "z" .v128 = .error (.unsupportedType "z" .v128) :=
  execute_argument_coercion wDouble
    ⟨1, [("udf_main", .func [.i64] behDouble)], false, true, true⟩ "udf_main"
    [.i64] behDouble rfl (by decide) rfl rfl
    ["21"] [.I64 21] rfl (by decide) 0 (by decide) (by decide) (by decide)
    ["x"] rfl 0 (by decide) (by decide)
    (fun k hk1 hk2 hk => absurd hk (Nat.not_lt_zero k))
    (.argumentConversion "x" .i64) (by decide)
    "x" .i64 (by decide) (by decide)
    "z" .v128 (by decide)

/-- C8: a null input short-circuits to a null result without attempting
module execution; a child-evaluation or store failure propagates as an
evaluation failure; absence of the configured module in the store yields a
null result, not an error; and a (non-exit) engine failure propagates as an
evaluation failure. -/
theorem nbody_null_and_absence_propagation
    (storeRes0 storeRes1 : Except EvalError (Option WASM)) (v : Int)
    (eC eS : EvalError)
    (wT : WASM) (mT : ModuleInfo) (psT : List ValType) (behT : Behavior)
    (vsT : List Val) (eR : RuntimeError)
    (hcT : wT.compiled = some mT)
    (hwT : mT.wasiImports = true → mT.wasiFinalizeOk = true)
    (hiT : mT.instantiateOk = true)
    (hfT : findExport "udf_main" mT.exports = some (.func psT behT))
    (hlT : psT.length = 1)
    (hokT : coerceArgs [intDec v] psT = .ok vsT)
    (hbT : behT vsT = .error eR)
    (hnx : ∀ k, eR ≠ .wasiExit k) :
    nbody (.ok none) storeRes0 = (.ok none, false) ∧
    nbody (.error eC) storeRes1 = (.err eC, false) ∧
    nbody (.ok (some v)) (.ok none) = (.ok none, false) ∧
    nbody (.ok (some v)) (.error eS) = (.err eS, false) ∧
    nbody (.ok (some v)) (.ok (some wT)) =
      (.err (.engine (.executionTrap eR)), true) := by
  refine ⟨rfl, rfl, rfl, rfl, ?_⟩
  have hexec : (WASM.execute wT "udf_main" [intDec v]).1 =
      .err (.executionTrap eR) := by
    rw [execute_invokes wT mT "udf_main" psT behT [intDec v] vsT hcT hwT hiT
      hfT (by rw [hlT]; rfl) hokT]
    rw [hbT]
    cases eR with
    | wasiExit k => exact absurd rfl (hnx k)
    | wasiUnknownVersion => rfl
    | trap msg => rfl
  simp only [nbody, hexec]

/-- Witness for C8 at the trapping `udf_main` module with input 21. -/
theorem nbody_null_and_absence_propagation_witness :
    nbody (.ok none) (.ok none) = (.ok none, false) ∧
    nbody (.error (.child 2)) (.ok none) = (.err (.child 2), false) ∧
    nbody (.ok (some 21)) (.ok none) = (.ok none, false) ∧
    nbody (.ok (some 21)) (.error (.store 1)) = (.err (.store 1), false) ∧
    nbody (.ok (some 21)) (.ok (some wTrapUdf)) =
      (.err (.engine (.executionTrap (.trap "boom"))), true) :=
  nbody_null_and_absence_propagation (.ok none) (.ok none) 21 (.child 2)
    (.store 1) wTrapUdf
    ⟨1, [("udf_main", .func [.i64] behTrapI)], false, true, true⟩ [.i64]
    behTrapI [.I64 21] (.trap "boom") rfl (by decide) rfl rfl rfl (by decide)
    rfl (fun k h => nomatch h)

end TikvUdf
